import Mathlib

/-!
Verification of the gaze-tracking core (GazeTracking / PointOfGaze /
GazeCalibration) against its natural-language specification.

Real arithmetic performed by the Python code on IEEE floats is embedded
as exact rational arithmetic over the field of rationals; machine integers
are embedded as unbounded integers.  Python division by zero raises a
ZeroDivisionError at the site of the division; the embedding returns an
explicit error value at the same site instead.
-/

/-- Embedding of the Python builtin round (banker's-free description:
round half to even).  The argument is the exact rational value of the
float being rounded. -/
def pyRound (q : ℚ) : ℤ :=
  let f := ⌊q⌋
  let r := q - (f : ℚ)
  if r < 1/2 then f
  else if 1/2 < r then f + 1
  else if f % 2 = 0 then f else f + 1

/-- pyRound of a nonnegative rational is nonnegative. -/
theorem pyRound_nonneg {q : ℚ} (h : 0 ≤ q) : 0 ≤ pyRound q := by
  have hf : (0 : ℤ) ≤ ⌊q⌋ := Int.floor_nonneg.mpr h
  unfold pyRound
  dsimp only
  split
  · exact hf
  · split
    · omega
    · split
      · exact hf
      · omega

/-- pyRound of an integer is that integer. -/
theorem pyRound_intCast (n : ℤ) : pyRound (n : ℚ) = n := by
  have hf : ⌊(n : ℚ)⌋ = n := Int.floor_intCast n
  unfold pyRound
  dsimp only
  rw [hf]
  norm_num

/-- The calibration data consumed by GazeTracking.point_of_gaze
(gaze_tracking.py lines 119-146): the four extreme gaze ratios, the
full-screen frame width and height, and the baseline iris size. -/
structure GazeCalib where
  leftmost_hr : ℚ
  rightmost_hr : ℚ
  top_vr : ℚ
  bottom_vr : ℚ
  fsw : ℚ
  fsh : ℚ
  base_iris_size : ℚ
deriving Repr, DecidableEq

/-- Failure sites of the mapping.  Python raises ZeroDivisionError at
both; the spec calls the mapping-denominator failure DegenerateCalibration,
and the baseline-over-current division failure can only occur for a zero
current iris size. -/
inductive PogError where
  | zeroIris : PogError
  | degenerateCalibration : PogError
deriving Repr, DecidableEq

/-- gaze_tracking.py line 132: dist_factor = base_iris_size / current. -/
def dist_factor (c : GazeCalib) (currentIris : ℚ) : ℚ :=
  c.base_iris_size / currentIris

/-- gaze_tracking.py lines 129-130 (and point_of_gaze.py lines 53-54):
a still-unset current iris size is initialized to the baseline iris size
of the calibration. -/
def initIris (c : GazeCalib) (cis : Option ℚ) : ℚ :=
  cis.getD c.base_iris_size

/-- The ratio-to-pixel mapping of gaze_tracking.py lines 132-137 (and,
identically up to int coercion, point_of_gaze.py lines 58-74), for a frame
on which the pupils are located.  Python evaluates the dist_factor
division first, then est_x, then est_y, raising ZeroDivisionError at the
first zero divisor; the embedding returns the corresponding error. -/
def point_of_gaze_est (c : GazeCalib) (currentIris hr vr : ℚ) :
    Except PogError (ℤ × ℤ) :=
  if currentIris = 0 then .error .zeroIris
  else
    let df := dist_factor c currentIris
    if c.leftmost_hr - c.rightmost_hr = 0 then .error .degenerateCalibration
    else if c.bottom_vr - c.top_vr = 0 then .error .degenerateCalibration
    else
      .ok (pyRound (max (c.leftmost_hr - hr) 0 * c.fsw * df /
              (c.leftmost_hr - c.rightmost_hr)),
           pyRound (max (vr - c.top_vr) 0 * c.fsh * df /
              (c.bottom_vr - c.top_vr)))

deriving instance DecidableEq for Except

/-- The calibration of the end-to-end scenario of the spec. -/
def exCalib : GazeCalib :=
  { leftmost_hr := 7/10, rightmost_hr := 1/2, top_vr := 7/10,
    bottom_vr := 9/10, fsw := 1920, fsh := 1080, base_iris_size := 50 }

/-- A degenerate calibration: leftmost and rightmost ratios coincide. -/
def degCalib : GazeCalib :=
  { leftmost_hr := 3/5, rightmost_hr := 3/5, top_vr := 7/10,
    bottom_vr := 9/10, fsw := 1920, fsh := 1080, base_iris_size := 50 }

/-- A reversed calibration (rightmost ratio above leftmost). -/
def revCalib : GazeCalib :=
  { leftmost_hr := 1/2, rightmost_hr := 7/10, top_vr := 7/10,
    bottom_vr := 9/10, fsw := 1920, fsh := 1080, base_iris_size := 50 }

/-- C1: for the completed calibration leftmost_hr=0.70, rightmost_hr=0.50,
top_vr=0.70, bottom_vr=0.90, base_iris_size=50, current_iris_size=50 and a
1920 by 1080 screen, the ratios hr=0.60, vr=0.80 give dist_factor exactly 1
and the estimated point of gaze exactly (960, 540). -/
theorem C1_end_to_end :
    dist_factor exCalib 50 = 1 ∧
    point_of_gaze_est exCalib 50 (3/5) (4/5) = .ok (960, 540) := by
  constructor
  · norm_num [dist_factor, exCalib]
  · norm_num [point_of_gaze_est, exCalib, dist_factor, pyRound]

/-- C2: for every input ratio pair and every iris size, a degenerate
calibration (equal horizontal extremes or equal vertical extremes) makes
the mapping fail instead of returning a coordinate, and whenever the
dist_factor division itself succeeds the failure is the
degenerate-calibration error. -/
theorem C2_degenerate (c : GazeCalib) (ci hr vr : ℚ)
    (h : c.leftmost_hr = c.rightmost_hr ∨ c.bottom_vr = c.top_vr) :
    (∀ p : ℤ × ℤ, point_of_gaze_est c ci hr vr ≠ .ok p) ∧
    (ci ≠ 0 →
      point_of_gaze_est c ci hr vr = .error .degenerateCalibration) := by
  unfold point_of_gaze_est
  by_cases hci : ci = 0
  · simp [hci]
  · have hden : c.leftmost_hr - c.rightmost_hr = 0 ∨
        c.bottom_vr - c.top_vr = 0 := by
      rcases h with h | h
      · exact Or.inl (sub_eq_zero.mpr h)
      · exact Or.inr (sub_eq_zero.mpr h)
    by_cases hx : c.leftmost_hr - c.rightmost_hr = 0
    · simp [hci, hx]
    · have hy : c.bottom_vr - c.top_vr = 0 := by tauto
      simp [hci, hx, hy]

/-- Witness for C2 at a concrete degenerate calibration. -/
theorem C2_degenerate_witness :
    point_of_gaze_est degCalib 50 (1/2) (4/5) =
      .error .degenerateCalibration :=
  (C2_degenerate degCalib 50 (1/2) (4/5)
      (Or.inl (by norm_num [degCalib]))).2 (by norm_num)

/-- C5 counterexample: with a reversed calibration (rightmost_hr greater
than leftmost_hr) the mapping returns a negative x coordinate, refuting
the claim that no input produces a negative estimate. -/
theorem C5_counterexample :
    point_of_gaze_est revCalib 50 (2/5) (7/10) = .ok (-960, 0) ∧
    (-960 : ℤ) < 0 := by
  refine ⟨?_, by norm_num⟩
  norm_num [point_of_gaze_est, revCalib, dist_factor, pyRound]

/-- C5 amended: for every calibration and iris size for which the
mapping returns a coordinate at all (non-degenerate calibration,
nonzero iris size), an input with hr at or beyond leftmost_hr maps to
x = 0 and an input with vr at or above top_vr maps to y = 0; and when
additionally the calibration is properly oriented (leftmost_hr above
rightmost_hr, bottom_vr above top_vr) and the screen dimensions, the
baseline iris size and the current iris size are nonnegative (the
current one positive), the mapped coordinate is never negative. -/
theorem C5_nonnegative (c : GazeCalib) (ci hr vr : ℚ) :
    ∀ p : ℤ × ℤ, point_of_gaze_est c ci hr vr = .ok p →
      ((c.leftmost_hr ≤ hr → p.1 = 0) ∧ (vr ≤ c.top_vr → p.2 = 0)) ∧
      (c.rightmost_hr < c.leftmost_hr → c.top_vr < c.bottom_vr →
        0 ≤ c.fsw → 0 ≤ c.fsh → 0 ≤ c.base_iris_size → 0 < ci →
        0 ≤ p.1 ∧ 0 ≤ p.2) := by
  intro p hp
  unfold point_of_gaze_est at hp
  by_cases hci : ci = 0
  · rw [if_pos hci] at hp
    exact absurd hp (by simp)
  · rw [if_neg hci] at hp
    by_cases hx0 : c.leftmost_hr - c.rightmost_hr = 0
    · rw [if_pos hx0] at hp
      exact absurd hp (by simp)
    · rw [if_neg hx0] at hp
      by_cases hy0 : c.bottom_vr - c.top_vr = 0
      · rw [if_pos hy0] at hp
        exact absurd hp (by simp)
      · rw [if_neg hy0] at hp
        have hp1 : p.1 = pyRound (max (c.leftmost_hr - hr) 0 * c.fsw *
            dist_factor c ci / (c.leftmost_hr - c.rightmost_hr)) := by
          have := congrArg (fun e => match e with
            | Except.ok q => q.1
            | Except.error _ => p.1) hp
          simpa using this.symm
        have hp2 : p.2 = pyRound (max (vr - c.top_vr) 0 * c.fsh *
            dist_factor c ci / (c.bottom_vr - c.top_vr)) := by
          have := congrArg (fun e => match e with
            | Except.ok q => q.2
            | Except.error _ => p.2) hp
          simpa using this.symm
        refine ⟨⟨?_, ?_⟩, ?_⟩
        · intro hge
          rw [hp1, max_eq_right (sub_nonpos.mpr hge)]
          simpa using pyRound_intCast 0
        · intro hle
          rw [hp2, max_eq_right (sub_nonpos.mpr hle)]
          simpa using pyRound_intCast 0
        · intro hlr htb hw hh hbase hcipos
          have hdf : 0 ≤ dist_factor c ci :=
            div_nonneg hbase (le_of_lt hcipos)
          constructor
          · rw [hp1]
            apply pyRound_nonneg
            apply div_nonneg
            · exact mul_nonneg (mul_nonneg (le_max_right _ _) hw) hdf
            · exact le_of_lt (sub_pos.mpr hlr)
          · rw [hp2]
            apply pyRound_nonneg
            apply div_nonneg
            · exact mul_nonneg (mul_nonneg (le_max_right _ _) hh) hdf
            · exact le_of_lt (sub_pos.mpr htb)

/-- Witness for the amended C5 at a concrete gaze beyond both extremes,
discharging every hypothesis: the mapped point is (0, 0), both clamp
clauses fire and both coordinates are nonnegative. -/
theorem C5_nonnegative_witness :
    ((0 : ℤ), (0 : ℤ)).1 = 0 ∧ ((0 : ℤ), (0 : ℤ)).2 = 0 ∧
    0 ≤ ((0 : ℤ), (0 : ℤ)).1 ∧ 0 ≤ ((0 : ℤ), (0 : ℤ)).2 := by
  have h := C5_nonnegative exCalib 50 (4/5) (3/5) (0, 0)
    (by norm_num [point_of_gaze_est, exCalib, dist_factor, pyRound])
  have h2 := h.2 (by norm_num [exCalib]) (by norm_num [exCalib])
    (by norm_num [exCalib]) (by norm_num [exCalib])
    (by norm_num [exCalib]) (by norm_num)
  exact ⟨h.1.1 (by norm_num [exCalib]), h.1.2 (by norm_num [exCalib]),
    h2.1, h2.2⟩

/-- C9: on the first frame after calibration on which a point of gaze is
computed the current iris size is initialized to the baseline iris size,
the dist_factor is exactly 1, the first estimate carries no head-distance
compensation, and the dist_factor stays 1 as long as the stored iris size
still equals the baseline (it can change only through a later
re-measurement). -/
theorem C9_first_frame (c : GazeCalib) (hr vr : ℚ)
    (hb : c.base_iris_size ≠ 0)
    (hx : c.leftmost_hr - c.rightmost_hr ≠ 0)
    (hy : c.bottom_vr - c.top_vr ≠ 0) :
    initIris c none = c.base_iris_size ∧
    dist_factor c (initIris c none) = 1 ∧
    point_of_gaze_est c (initIris c none) hr vr =
      .ok (pyRound (max (c.leftmost_hr - hr) 0 * c.fsw /
              (c.leftmost_hr - c.rightmost_hr)),
           pyRound (max (vr - c.top_vr) 0 * c.fsh /
              (c.bottom_vr - c.top_vr))) ∧
    (∀ cis : Option ℚ, initIris c cis = c.base_iris_size →
      dist_factor c (initIris c cis) = 1) := by
  have hinit : initIris c none = c.base_iris_size := rfl
  have hdf : dist_factor c c.base_iris_size = 1 := div_self hb
  refine ⟨hinit, by rw [hinit]; exact hdf, ?_, ?_⟩
  · unfold point_of_gaze_est
    rw [hinit, if_neg hb, if_neg hx, if_neg hy, hdf]
    rw [mul_one, mul_one]
  · intro cis hcis
    rw [hcis]; exact hdf

/-- Witness for C9 at the example calibration. -/
theorem C9_first_frame_witness :
    initIris exCalib none = exCalib.base_iris_size ∧
    dist_factor exCalib (initIris exCalib none) = 1 ∧
    point_of_gaze_est exCalib (initIris exCalib none) (3/5) (4/5) =
      .ok (pyRound (max (exCalib.leftmost_hr - 3/5) 0 * exCalib.fsw /
              (exCalib.leftmost_hr - exCalib.rightmost_hr)),
           pyRound (max (4/5 - exCalib.top_vr) 0 * exCalib.fsh /
              (exCalib.bottom_vr - exCalib.top_vr))) ∧
    (∀ cis : Option ℚ, initIris exCalib cis = exCalib.base_iris_size →
      dist_factor exCalib (initIris exCalib cis) = 1) :=
  C9_first_frame exCalib (3/5) (4/5) (by norm_num [exCalib])
    (by norm_num [exCalib]) (by norm_num [exCalib])

/-!
The online stabilization engine of GazeTracking.stabilized
(gaze_tracking.py lines 148-211).  The two clusters are Python deques
with maximal length gaze_cluster_size.  In the promotion step (lines
171-173) the Python statement current_cluster = candidate_cluster binds
the SAME deque object to both names, and the following
candidate_cluster.clear() therefore empties both; from then on the two
names stay aliased.  The state records that aliasing in a flag, and the
step function keeps the two list fields equal whenever the flag is set.
The membership radius r of the code is the Euclidean distance
sqrt((0.3 w)^2 + (0.3 h)^2); the embedding compares squared distances
against rsq = r^2, which is equivalent because both sides of the
comparison in the code are nonnegative.
-/

/-- gaze_tracking.py line 20: cluster capacity. -/
def gaze_cluster_size : ℕ := 2

/-- Append on a Python deque with maximal length k: the oldest entries
are discarded from the left when the deque overflows. -/
def dappend {α : Type} (k : ℕ) (d : List α) (p : α) : List α :=
  let d1 := d ++ [p]
  if k < d1.length then d1.drop (d1.length - k) else d1

/-- Squared Euclidean distance of two screen points. -/
def sqDist (p q : ℚ × ℚ) : ℚ := (p.1 - q.1) ^ 2 + (p.2 - q.2) ^ 2

/-- gaze_tracking.py lines 197-211: point p is accepted by cluster c when
its distance to every member is at most r; an empty cluster accepts
everything.  Distances are compared squared against rsq = r^2. -/
def withinCluster (c : List (ℚ × ℚ)) (p : ℚ × ℚ) (rsq : ℚ) : Bool :=
  c.all (fun pc => decide (sqDist pc p ≤ rsq))

/-- gaze_tracking.py lines 185-195: the centroid of a nonempty cluster,
and the raw point for an empty cluster. -/
def centroid (c : List (ℚ × ℚ)) (x y : ℚ) : ℚ × ℚ :=
  if 0 < c.length then
    ((c.map Prod.fst).sum / (c.length : ℚ), (c.map Prod.snd).sum / (c.length : ℚ))
  else (x, y)

/-- State of GazeTracking.stabilized: the current and the candidate
cluster, plus the flag recording that the two Python names have been
aliased to one deque by a past promotion.  Whenever aliased is true the
two list fields are kept equal. -/
structure GTState where
  current : List (ℚ × ℚ)
  candidate : List (ℚ × ℚ)
  aliased : Bool
deriving Repr, DecidableEq

/-- Initial state (gaze_tracking.py lines 31-32): two distinct empty
deques. -/
def initGT : GTState := { current := [], candidate := [], aliased := false }

/-- gaze_tracking.py lines 177-183: the fall-through tail of stabilized,
reached with an empty candidate cluster.  cur is the current cluster at
that point (empty if an aliased clear wiped it).  When the point is not
accepted by the current cluster it is appended to the candidate deque,
which also mutates the current cluster if the two are aliased. -/
def stabTail (rsq : ℚ) (cur : List (ℚ × ℚ)) (al : Bool) (p : ℚ × ℚ) :
    GTState × (ℚ × ℚ) :=
  if withinCluster cur p rsq then
    let cur1 := dappend gaze_cluster_size cur p
    ({ current := cur1, candidate := if al then cur1 else [], aliased := al },
      centroid cur1 p.1 p.2)
  else
    if al then
      let cur1 := dappend gaze_cluster_size cur p
      ({ current := cur1, candidate := cur1, aliased := true },
        centroid cur1 p.1 p.2)
    else
      ({ current := cur, candidate := [p], aliased := false },
        centroid cur p.1 p.2)

/-- One frame of GazeTracking.stabilized (gaze_tracking.py lines 148-183)
on estimated point p.  Lines 160-162 bootstrap the current cluster; lines
167-176 handle a nonempty candidate cluster, with the aliasing promotion
of lines 171-173; the rest falls through to stabTail. -/
def stabStep (rsq : ℚ) (s : GTState) (p : ℚ × ℚ) : GTState × (ℚ × ℚ) :=
  let k := gaze_cluster_size
  let cur := s.current
  let cand := if s.aliased then s.current else s.candidate
  if cur.length < k then
    let cur1 := dappend k cur p
    ({ current := cur1, candidate := if s.aliased then cur1 else s.candidate,
       aliased := s.aliased }, p)
  else if 0 < cand.length then
    if withinCluster cand p rsq then
      let cand1 := dappend k cand p
      if cand1.length = k then
        ({ current := [], candidate := [], aliased := true },
          centroid [] p.1 p.2)
      else
        ({ current := if s.aliased then cand1 else cur, candidate := cand1,
           aliased := s.aliased }, centroid cand1 p.1 p.2)
    else
      stabTail rsq (if s.aliased then [] else cur) s.aliased p
  else
    stabTail rsq cur s.aliased p

/-- Feeding a stream of estimated points through stabilized, collecting
the stabilized outputs. -/
def stabRun (rsq : ℚ) : GTState → List (ℚ × ℚ) → GTState × List (ℚ × ℚ)
  | s, [] => (s, [])
  | s, p :: ps =>
    let sp := stabStep rsq s p
    let rest := stabRun rsq sp.1 ps
    (rest.1, sp.2 :: rest.2)

/-- Concrete screen point used by the outlier scenario. -/
def p100 : ℚ × ℚ := (100, 100)

/-- Concrete outlier point used by the outlier scenario. -/
def p900 : ℚ × ℚ := (900, 900)

/-- Concrete origin point used by the promotion scenario. -/
def pZero : ℚ × ℚ := (0, 0)

/-- Bootstrap on an empty current cluster. -/
theorem stabStep_nil (rsq : ℚ) (p : ℚ × ℚ) :
    stabStep rsq initGT p = ({ current := [p], candidate := [], aliased := false }, p) := by
  norm_num [stabStep, initGT, dappend, gaze_cluster_size]

/-- Bootstrap on a one-element current cluster. -/
theorem stabStep_one (rsq : ℚ) (q p : ℚ × ℚ) :
    stabStep rsq { current := [q], candidate := [], aliased := false } p =
      ({ current := [q, p], candidate := [], aliased := false }, p) := by
  norm_num [stabStep, dappend, gaze_cluster_size]

/-- A point accepted by a full current cluster shifts it one step. -/
theorem stabStep_full_in (rsq : ℚ) (a b p : ℚ × ℚ)
    (h : withinCluster [a, b] p rsq = true) :
    stabStep rsq { current := [a, b], candidate := [], aliased := false } p =
      ({ current := [b, p], candidate := [], aliased := false },
        centroid [b, p] p.1 p.2) := by
  norm_num [stabStep, stabTail, dappend, gaze_cluster_size, h]

/-- A point rejected by a full current cluster starts a candidate. -/
theorem stabStep_full_out (rsq : ℚ) (a b p : ℚ × ℚ)
    (h : withinCluster [a, b] p rsq = false) :
    stabStep rsq { current := [a, b], candidate := [], aliased := false } p =
      ({ current := [a, b], candidate := [p], aliased := false },
        centroid [a, b] p.1 p.2) := by
  norm_num [stabStep, stabTail, dappend, gaze_cluster_size, h]

/-- A point rejected by the candidate clears it and is then handled by
the current cluster, which accepts it. -/
theorem stabStep_cand_out (rsq : ℚ) (a b q p : ℚ × ℚ)
    (hq : withinCluster [q] p rsq = false)
    (hc : withinCluster [a, b] p rsq = true) :
    stabStep rsq { current := [a, b], candidate := [q], aliased := false } p =
      ({ current := [b, p], candidate := [], aliased := false },
        centroid [b, p] p.1 p.2) := by
  norm_num [stabStep, stabTail, dappend, gaze_cluster_size, hq, hc]

/-- A point accepted by a one-element candidate fills it to capacity and
triggers the promotion of lines 171-173, whose aliased clear leaves BOTH
clusters empty; the returned value is the raw point (centroid of the
now-empty candidate). -/
theorem stabStep_promote (rsq : ℚ) (a b q p : ℚ × ℚ)
    (hq : withinCluster [q] p rsq = true) :
    stabStep rsq { current := [a, b], candidate := [q], aliased := false } p =
      ({ current := [], candidate := [], aliased := true }, (p.1, p.2)) := by
  norm_num [stabStep, dappend, gaze_cluster_size, hq, centroid]

/-- The centroid of a two-point cluster. -/
theorem centroid_pair (a b : ℚ × ℚ) (x y : ℚ) :
    centroid [a, b] x y = ((a.1 + b.1) / 2, (a.2 + b.2) / 2) := by
  norm_num [centroid]

/-- The centroid of two copies of a point is that point. -/
theorem centroid_same (p : ℚ × ℚ) (x y : ℚ) : centroid [p, p] x y = p := by
  rw [centroid_pair]
  have h1 : (p.1 + p.1) / 2 = p.1 := by ring
  have h2 : (p.2 + p.2) / 2 = p.2 := by ring
  rw [h1, h2]

/-- A duplicated point is within any nonnegative squared radius of its
own two-element cluster. -/
theorem within_pair_same (p : ℚ × ℚ) (rsq : ℚ) (h : 0 ≤ rsq) :
    withinCluster [p, p] p rsq = true := by
  simp [withinCluster, sqDist, h]

/-- Constant input keeps the stabilizer in one of the three reachable
bootstrap states and echoes the input point. -/
theorem stabRun_const_aux (rsq : ℚ) (p : ℚ × ℚ) (h : 0 ≤ rsq) :
    ∀ n : ℕ, ∀ s : GTState,
      (s = initGT ∨ s = { current := [p], candidate := [], aliased := false } ∨
        s = { current := [p, p], candidate := [], aliased := false }) →
      (stabRun rsq s (List.replicate n p)).2 = List.replicate n p := by
  intro n
  induction n with
  | zero => intro s _; simp [stabRun]
  | succ n ih =>
    intro s hs
    rcases hs with h1 | h1 | h1 <;> subst h1
    · rw [List.replicate_succ]
      simp only [stabRun, stabStep_nil]
      exact congrArg (p :: ·) (ih _ (Or.inr (Or.inl rfl)))
    · rw [List.replicate_succ]
      simp only [stabRun, stabStep_one]
      exact congrArg (p :: ·) (ih _ (Or.inr (Or.inr rfl)))
    · rw [List.replicate_succ]
      have hstep := stabStep_full_in rsq p p p (within_pair_same p rsq h)
      rw [centroid_same] at hstep
      simp only [stabRun, hstep]
      exact congrArg (p :: ·) (ih _ (Or.inr (Or.inr rfl)))

/-- C6: starting from empty clusters, feeding the same point on every
frame makes the stabilized output equal to that point on every one of
those frames, for any number of frames. -/
theorem C6_constant_input (x y rsq : ℚ) (h : 0 ≤ rsq) (n : ℕ) :
    (stabRun rsq initGT (List.replicate n (x, y))).2 =
      List.replicate n (x, y) :=
  stabRun_const_aux rsq (x, y) h n initGT (Or.inl rfl)

/-- Witness for C6 with five frames of the point (3, 4). -/
theorem C6_constant_input_witness :
    (stabRun 0 initGT (List.replicate 5 ((3 : ℚ), (4 : ℚ)))).2 =
      List.replicate 5 ((3 : ℚ), (4 : ℚ)) :=
  C6_constant_input 3 4 0 le_rfl 5

/-- C7: after bootstrapping with two frames of (100,100), a single
outlier (900,900) whose squared distance 1280000 to (100,100) exceeds
the squared acceptance radius, followed by one more (100,100), never
moves the stabilized output away from (100,100); the one-member
candidate cluster started by the outlier is discarded, never promoted. -/
theorem C7_outlier_rejected (rsq : ℚ) (h0 : 0 ≤ rsq) (h1 : rsq < 1280000) :
    (stabRun rsq initGT [p100, p100, p900, p100]).2 =
      [p100, p100, p100, p100] := by
  have hsq : sqDist p100 p900 = 1280000 := by norm_num [sqDist, p100, p900]
  have hsq2 : sqDist p900 p100 = 1280000 := by norm_num [sqDist, p100, p900]
  have hout : withinCluster [p100, p100] p900 rsq = false := by
    simp [withinCluster, hsq]
    exact h1
  have hq : withinCluster [p900] p100 rsq = false := by
    simp [withinCluster, hsq2]
    exact h1
  have hc := within_pair_same p100 rsq h0
  have h3 := stabStep_full_out rsq p100 p100 p900 hout
  rw [centroid_same] at h3
  have h4 := stabStep_cand_out rsq p100 p100 p900 p100 hq hc
  rw [centroid_same] at h4
  simp only [stabRun, stabStep_nil, stabStep_one, h3, h4]

/-- Witness for C7 at squared radius 90000 (radius 300). -/
theorem C7_outlier_rejected_witness :
    (stabRun 90000 initGT [p100, p100, p900, p100]).2 =
      [p100, p100, p100, p100] :=
  C7_outlier_rejected 90000 (by norm_num) (by norm_num)

/-- C8: evaluation of the promoting step at a concrete run.  Feeding
(0,0), (0,0), then twice (900,900) (outside the radius), the fourth
frame makes the candidate reach capacity 2; after that step the current
cluster is EMPTY, not equal to the two promoted candidate members,
because line 172 aliases the two deques and line 173 clears both.  The
output of the promoting frame is the raw point. -/
theorem C8_promotion_leaves_current_empty :
    stabRun 1000000 initGT [pZero, pZero, p900, p900] =
      ({ current := [], candidate := [], aliased := true },
        [pZero, pZero, pZero, p900]) := by
  have hsq : sqDist pZero p900 = 1620000 := by norm_num [sqDist, pZero, p900]
  have hout : withinCluster [pZero, pZero] p900 1000000 = false := by
    simp [withinCluster, hsq]
    norm_num
  have hq : withinCluster [p900] p900 1000000 = true := by
    norm_num [withinCluster, sqDist, p900]
  have h3 := stabStep_full_out 1000000 pZero pZero p900 hout
  rw [centroid_same] at h3
  have h4 := stabStep_promote 1000000 pZero pZero p900 p900 hq
  simp only [stabRun, stabStep_nil, stabStep_one, h3, h4]

/-!
The stabilization variant of PointOfGaze.stabilized (point_of_gaze.py
lines 93-213).  Estimated points are ints; clusters are per-axis deques
of ints with maximal length cluster_mx_size; the membership test
_within_cluster (lines 175-188) compares only the horizontal axis.
The mean helper returns None on an empty cluster (the Python code
returns a (None, None) tuple there), modelled as an Option.
-/

/-- point_of_gaze.py line 34: minimal cluster size (promotion size). -/
def cluster_mn_size : ℕ := 2

/-- point_of_gaze.py line 35: maximal cluster size. -/
def cluster_mx_size : ℕ := 20

/-- point_of_gaze.py line 25: move fragments needed for an eye movement. -/
def nb_same : ℕ := 2

/-- point_of_gaze.py line 26: allowed intervening opposite fragments. -/
def nb_interv_allowed : ℕ := 0

/-- Python negative indexing xs[-i] over an int list (in-range in every
use below, with 0 as the out-of-range default). -/
def negIdx (xs : List ℤ) (i : ℕ) : ℤ := xs.getD (xs.length - i) 0

/-- The loop of point_of_gaze.py lines 199-207: walk d over consecutive
difference pairs taken from the end of xs, tolerating at most the allowed
number of non-positive direction products. -/
def emLoop (allowed : ℕ) (xs : List ℤ) : ℕ → ℕ → ℕ → Bool
  | 0, _, _ => true
  | rem + 1, d, nbi =>
    let xd1 := negIdx xs (d + 1) - negIdx xs (d + 2)
    let xd2 := negIdx xs (d + 2) - negIdx xs (d + 3)
    if xd1 * xd2 ≤ 0 then
      if nbi < allowed then emLoop allowed xs rem (d + 1) (nbi + 1)
      else false
    else emLoop allowed xs rem (d + 1) nbi

/-- point_of_gaze.py lines 190-213: eye-movement detection over the
concatenation of the current and the move cluster (horizontal axis
only). -/
def eye_movement (allowed : ℕ) (curr_xs move_xs : List ℤ) (k : ℕ) : Bool :=
  let xs := curr_xs ++ move_xs
  if 1 < k then
    if k < xs.length then emLoop allowed xs (k - 1) 0 0
    else false
  else false

/-- point_of_gaze.py lines 165-173: rounded mean of a nonempty int
cluster, and no value for an empty one. -/
def meanR (cluster : List ℤ) : Option ℤ :=
  if 0 < cluster.length then
    some (pyRound ((cluster.sum : ℚ) / (cluster.length : ℚ)))
  else none

/-- point_of_gaze.py lines 175-188: x is accepted by cluster c when its
distance to every member, measured on the horizontal axis alone, is at
most r; an empty cluster accepts everything. -/
def withinX (c : List ℤ) (x : ℤ) (r : ℚ) : Bool :=
  c.all (fun x2 => decide (|(x2 : ℚ) - (x : ℚ)| ≤ r))

/-- State of PointOfGaze.stabilized: per-axis current, candidate and move
clusters plus the two eye-movement flags. -/
structure PogState where
  current_cluster_x : List ℤ
  current_cluster_y : List ℤ
  candidate_cluster_x : List ℤ
  candidate_cluster_y : List ℤ
  move_cluster_x : List ℤ
  move_cluster_y : List ℤ
  ongoing_eye_move : Bool
  candidate_eye_move : Bool
deriving Repr, DecidableEq

/-- Initial state (point_of_gaze.py lines 32-43): empty clusters and
cleared flags. -/
def pogInit : PogState :=
  { current_cluster_x := [], current_cluster_y := [],
    candidate_cluster_x := [], candidate_cluster_y := [],
    move_cluster_x := [], move_cluster_y := [],
    ongoing_eye_move := false, candidate_eye_move := false }

/-- point_of_gaze.py lines 150-163: the final section of stabilized.
The incoming point joins the current cluster if accepted on the x axis,
otherwise it starts a move and a candidate cluster; the output is the
per-axis mean of the current cluster after the update. -/
def pogPhase3 (r : ℚ) (s : PogState) (x y : ℤ) :
    PogState × (Option ℤ × Option ℤ) :=
  if withinX s.current_cluster_x x r then
    let cx := dappend cluster_mx_size s.current_cluster_x x
    let cy := dappend cluster_mx_size s.current_cluster_y y
    ({ s with current_cluster_x := cx, current_cluster_y := cy },
      (meanR cx, meanR cy))
  else
    ({ s with
        candidate_eye_move := true
        move_cluster_x := dappend cluster_mx_size s.move_cluster_x x
        move_cluster_y := dappend cluster_mx_size s.move_cluster_y y
        candidate_cluster_x := dappend cluster_mx_size s.candidate_cluster_x x
        candidate_cluster_y := dappend cluster_mx_size s.candidate_cluster_y y },
     (meanR s.current_cluster_x, meanR s.current_cluster_y))

/-- point_of_gaze.py lines 143-145: clearing the candidate cluster. -/
def clearCandidate (s : PogState) : PogState :=
  { s with
      candidate_cluster_x := []
      candidate_cluster_y := [] }

/-- point_of_gaze.py lines 127-146: the candidate-cluster section.  A
point accepted by a nonempty candidate joins it and clears the current
cluster; if the candidate reaches cluster_mn_size it is copied into the
current cluster (a genuine copy here, unlike gaze_tracking.py) and
cleared.  A rejected point clears the candidate and falls through. -/
def pogPhase2 (r : ℚ) (s : PogState) (x y : ℤ) :
    PogState × (Option ℤ × Option ℤ) :=
  if 0 < s.candidate_cluster_x.length then
    if withinX s.candidate_cluster_x x r then
      let cax := dappend cluster_mx_size s.candidate_cluster_x x
      let cay := dappend cluster_mx_size s.candidate_cluster_y y
      if cax.length = cluster_mn_size then
        ({ s with
            current_cluster_x := cax
            current_cluster_y := cay
            candidate_cluster_x := []
            candidate_cluster_y := [] },
          (meanR cax, meanR cay))
      else
        ({ s with
            current_cluster_x := []
            current_cluster_y := []
            candidate_cluster_x := cax
            candidate_cluster_y := cay },
          (meanR cax, meanR cay))
    else
      pogPhase3 r (clearCandidate s) x y
  else pogPhase3 r s x y

/-- point_of_gaze.py lines 111-115: a confirmed eye movement; the
ongoing flag is set, the candidate cluster cleared and the extended move
clusters kept. -/
def pogMoveConfirm (s : PogState) (mx my : List ℤ) : PogState :=
  { s with
      ongoing_eye_move := true
      candidate_eye_move := false
      candidate_cluster_x := []
      candidate_cluster_y := []
      move_cluster_x := mx
      move_cluster_y := my }

/-- point_of_gaze.py lines 117-125, candidate_eye_move case: the
movement hypothesis is dropped and the move clusters cleared. -/
def pogMoveReset1 (s : PogState) : PogState :=
  { s with
      ongoing_eye_move := false
      candidate_eye_move := false
      move_cluster_x := []
      move_cluster_y := [] }

/-- point_of_gaze.py lines 117-125, ongoing_eye_move case: the movement
ends and both the current and the move clusters are cleared. -/
def pogMoveReset2 (s : PogState) : PogState :=
  { s with
      ongoing_eye_move := false
      current_cluster_x := []
      current_cluster_y := []
      move_cluster_x := []
      move_cluster_y := [] }

/-- One frame of PointOfGaze.stabilized (point_of_gaze.py lines 93-163).
Lines 107-125 handle the eye-movement flags first: the move cluster is
extended, a confirmed movement passes the raw point through, and an
unconfirmed one clears the move state (and, for a previously ongoing
movement, the current cluster) before the candidate section runs. -/
def pogStabStep (r : ℚ) (s : PogState) (x y : ℤ) :
    PogState × (Option ℤ × Option ℤ) :=
  if s.candidate_eye_move || s.ongoing_eye_move then
    let mx := dappend cluster_mx_size s.move_cluster_x x
    let my := dappend cluster_mx_size s.move_cluster_y y
    if eye_movement nb_interv_allowed s.current_cluster_x mx nb_same then
      (pogMoveConfirm s mx my, (some x, some y))
    else
      if s.candidate_eye_move then
        pogPhase2 r (pogMoveReset1 s) x y
      else
        pogPhase2 r (pogMoveReset2 s) x y
  else pogPhase2 r s x y

/-- The horizontal projection of a stabilization state: everything the
branching of pogStabStep can depend on. -/
def xParts (s : PogState) : List ℤ × List ℤ × List ℤ × Bool × Bool :=
  (s.current_cluster_x, s.candidate_cluster_x, s.move_cluster_x,
    s.ongoing_eye_move, s.candidate_eye_move)

/-- Unpacking an equality of horizontal projections. -/
theorem xParts_fields {a b : PogState} (h : xParts a = xParts b) :
    a.current_cluster_x = b.current_cluster_x ∧
    a.candidate_cluster_x = b.candidate_cluster_x ∧
    a.move_cluster_x = b.move_cluster_x ∧
    a.ongoing_eye_move = b.ongoing_eye_move ∧
    a.candidate_eye_move = b.candidate_eye_move := by
  simpa [xParts, Prod.ext_iff] using h

/-- The final section of stabilized reads and writes only the horizontal
projection, for any vertical inputs. -/
theorem pogPhase3_xParts (r : ℚ) (a b : PogState) (x y1 y2 : ℤ)
    (h : xParts a = xParts b) :
    xParts (pogPhase3 r a x y1).1 = xParts (pogPhase3 r b x y2).1 ∧
    (pogPhase3 r a x y1).2.1 = (pogPhase3 r b x y2).2.1 := by
  obtain ⟨h1, h2, h3, h4, h5⟩ := xParts_fields h
  by_cases hw : withinX a.current_cluster_x x r = true
  · have hw2 : withinX b.current_cluster_x x r = true := h1 ▸ hw
    simp [pogPhase3, hw, hw2, xParts, h1, h2, h3, h4, h5]
  · have hw2 : ¬withinX b.current_cluster_x x r = true := by
      rw [← h1]; exact hw
    simp [pogPhase3, hw, hw2, xParts, h1, h2, h3, h4, h5]

/-- The candidate section of stabilized reads and writes only the
horizontal projection, for any vertical inputs. -/
theorem pogPhase2_xParts (r : ℚ) (a b : PogState) (x y1 y2 : ℤ)
    (h : xParts a = xParts b) :
    xParts (pogPhase2 r a x y1).1 = xParts (pogPhase2 r b x y2).1 ∧
    (pogPhase2 r a x y1).2.1 = (pogPhase2 r b x y2).2.1 := by
  obtain ⟨h1, h2, h3, h4, h5⟩ := xParts_fields h
  by_cases hn : 0 < a.candidate_cluster_x.length
  · have hn2 : 0 < b.candidate_cluster_x.length := h2 ▸ hn
    by_cases hw : withinX a.candidate_cluster_x x r = true
    · have hw2 : withinX b.candidate_cluster_x x r = true := h2 ▸ hw
      by_cases hl : (dappend cluster_mx_size a.candidate_cluster_x x).length =
          cluster_mn_size
      · have hl2 : (dappend cluster_mx_size b.candidate_cluster_x x).length =
            cluster_mn_size := h2 ▸ hl
        simp [pogPhase2, hn, hn2, hw, hw2, hl, hl2, xParts, h1, h2, h3, h4, h5]
      · have hl2 : ¬(dappend cluster_mx_size b.candidate_cluster_x x).length =
            cluster_mn_size := by rw [← h2]; exact hl
        simp [pogPhase2, hn, hn2, hw, hw2, hl, hl2, xParts, h1, h2, h3, h4, h5]
    · rw [Bool.not_eq_true] at hw
      have hw2 : withinX b.candidate_cluster_x x r = false := h2 ▸ hw
      have hx : xParts (clearCandidate a) = xParts (clearCandidate b) := by
        simp [clearCandidate, xParts, h1, h3, h4, h5]
      have h3p := pogPhase3_xParts r (clearCandidate a) (clearCandidate b)
        x y1 y2 hx
      simpa [pogPhase2, hn, hn2, hw, hw2] using h3p
  · have hn2 : ¬0 < b.candidate_cluster_x.length := by rw [← h2]; exact hn
    have h3p := pogPhase3_xParts r a b x y1 y2 h
    simpa [pogPhase2, hn, hn2] using h3p

/-- The per-step horizontal projections of the reset states agree when
those of the inputs do. -/
theorem pogMoveReset1_xParts {a b : PogState} (h : xParts a = xParts b) :
    xParts (pogMoveReset1 a) = xParts (pogMoveReset1 b) := by
  obtain ⟨h1, h2, h3, h4, h5⟩ := xParts_fields h
  simp [pogMoveReset1, xParts, h1, h2]

/-- Analogue of the previous lemma for the second reset. -/
theorem pogMoveReset2_xParts {a b : PogState} (h : xParts a = xParts b) :
    xParts (pogMoveReset2 a) = xParts (pogMoveReset2 b) := by
  obtain ⟨h1, h2, h3, h4, h5⟩ := xParts_fields h
  simp [pogMoveReset2, xParts, h2, h5]

/-- One whole step of PointOfGaze.stabilized reads and writes only the
horizontal projection of the state, for any vertical inputs. -/
theorem pogStabStep_xParts (r : ℚ) (s : PogState) (x y1 y2 : ℤ) :
    xParts (pogStabStep r s x y1).1 = xParts (pogStabStep r s x y2).1 ∧
    (pogStabStep r s x y1).2.1 = (pogStabStep r s x y2).2.1 := by
  by_cases hf : (s.candidate_eye_move || s.ongoing_eye_move) = true
  · by_cases hm : eye_movement nb_interv_allowed s.current_cluster_x
        (dappend cluster_mx_size s.move_cluster_x x) nb_same = true
    · simp [pogStabStep, hf, hm, pogMoveConfirm, xParts]
    · rw [Bool.not_eq_true] at hm
      by_cases hc : s.candidate_eye_move = true
      · simpa [pogStabStep, hf, hm, hc] using
          pogPhase2_xParts r (pogMoveReset1 s) (pogMoveReset1 s) x y1 y2 rfl
      · rw [Bool.not_eq_true] at hc
        have ho : s.ongoing_eye_move = true := by
          simpa [hc] using hf
        simpa [pogStabStep, hf, hm, hc, ho] using
          pogPhase2_xParts r (pogMoveReset2 s) (pogMoveReset2 s) x y1 y2 rfl
  · rw [Bool.not_eq_true] at hf
    simpa [pogStabStep, hf] using pogPhase2_xParts r s s x y1 y2 rfl

/-- C10: in the PointOfGaze variant, cluster membership is decided from
the horizontal coordinate alone: two incoming points with the same x and
arbitrarily different y leave identical horizontal cluster state, flags
and horizontal output, and when the x coordinate is accepted by the
current cluster (candidate empty, no movement flags) no candidate
cluster is started, whatever the vertical jump. -/
theorem C10_vertical_independent (r : ℚ) (s : PogState) (x y1 y2 : ℤ) :
    xParts (pogStabStep r s x y1).1 = xParts (pogStabStep r s x y2).1 ∧
    (pogStabStep r s x y1).2.1 = (pogStabStep r s x y2).2.1 ∧
    (s.candidate_eye_move = false → s.ongoing_eye_move = false →
      s.candidate_cluster_x = [] → withinX s.current_cluster_x x r = true →
      (pogStabStep r s x y1).1.candidate_cluster_x = []) := by
  refine ⟨(pogStabStep_xParts r s x y1 y2).1,
    (pogStabStep_xParts r s x y1 y2).2, ?_⟩
  intro hc ho hcand hw
  simp [pogStabStep, hc, ho, pogPhase2, hcand, pogPhase3, hw]

/-- Witness for C10 from the initial state: x accepted, candidate stays
empty even for a huge vertical difference between the two runs. -/
theorem C10_vertical_independent_witness :
    (pogStabStep 10 pogInit 5 1).1.candidate_cluster_x = [] :=
  (C10_vertical_independent 10 pogInit 5 1 1000000).2.2 rfl rfl rfl rfl

/-!
The calibration aggregation of gazecalibration.py: the density-based
one-dimensional clustering (lines 273-284), its per-point wrapper
(lines 248-270), and the extraction of the four extreme ratios in
calibrate_gaze (lines 126-155).  The numpy call
np.histogram(series, bins=auto) is modelled exactly for the series
shapes that occur in these claims: an empty series gets one bin over
the interval from 0 to 1, a constant series gets one bin of width 1
centered at the value, and a series of three not-all-equal values
always gets 3 equal bins over the observed range, because the auto rule
takes the narrower of the Freedman-Diaconis and Sturges widths, the
interquartile range of three sorted values a, b, c under linear
interpolation is (c - a)/2 so the Freedman-Diaconis bin count is the
ceiling of the cube root of 3 (that is 2), and the Sturges count is the
ceiling of log2(3) + 1 (that is 3, computed as Nat.clog 2 3 + 1).
Values are counted into half-open equal bins, the last bin being
closed. -/

/-- Minimum of a list of rationals (numpy min; 0 unused default). -/
def listMin : List ℚ → ℚ
  | [] => 0
  | a :: as => as.foldl min a

/-- Maximum of a list of rationals (numpy max; 0 unused default). -/
def listMax : List ℚ → ℚ
  | [] => 0
  | a :: as => as.foldl max a

/-- The outer histogram edges chosen by numpy: (0, 1) for an empty
series, a width-1 interval for a constant series, else the observed
range. -/
def outerEdges (series : List ℚ) : ℚ × ℚ :=
  if series.isEmpty then (0, 1)
  else
    let lo := listMin series
    let hi := listMax series
    if lo = hi then (lo - 1/2, hi + 1/2) else (lo, hi)

/-- The bin count chosen by the numpy auto rule, in the exact form
described in the section comment above (valid for the empty, constant
and three-sample series this development evaluates it on). -/
def numpyAutoBins (series : List ℚ) : ℕ :=
  if series.isEmpty then 1
  else if listMin series = listMax series then 1
  else Nat.clog 2 series.length + 1

/-- The equal-width bin that value v falls into, with the last bin
closed on the right. -/
def binIndex (first last : ℚ) (n : ℕ) (v : ℚ) : ℕ :=
  min (⌊(v - first) * (n : ℚ) / (last - first)⌋).toNat (n - 1)

/-- Occupancy counts of the n equal bins. -/
def histCounts (series : List ℚ) (first last : ℚ) (n : ℕ) : List ℕ :=
  (List.range n).map (fun i => series.countP (fun v => binIndex first last n v == i))

/-- The n + 1 equally spaced bin edges. -/
def binEdges (first last : ℚ) (n : ℕ) : List ℚ :=
  (List.range (n + 1)).map (fun j => first + (j : ℚ) * (last - first) / (n : ℚ))

/-- Index of the first maximal entry (np.argmax), accumulator form. -/
def argmaxAux : List ℕ → ℕ → ℕ → ℕ → ℕ
  | [], bi, _, _ => bi
  | a :: as, bi, bv, i =>
    if bv < a then argmaxAux as i a (i + 1) else argmaxAux as bi bv (i + 1)

/-- Index of the first maximal entry of a list (np.argmax). -/
def argmaxList : List ℕ → ℕ
  | [] => 0
  | a :: as => argmaxAux as 0 a 1

/-- gazecalibration.py lines 273-284: histogram the series with the auto
binning, take the fullest bin, return the midpoint of its edges. -/
def density_based_1d_cluster (series : List ℚ) : ℚ :=
  let n := numpyAutoBins series
  let e := outerEdges series
  let hist := histCounts series e.1 e.2 n
  let edges := binEdges e.1 e.2 n
  let ix := argmaxList hist
  (edges.getD ix 0 + edges.getD (ix + 1) 0) / 2

/-- gazecalibration.py lines 248-270: split the per-point samples into
the horizontal and vertical series and cluster each independently. -/
def cluster_ratios_for_calib_point (ratios : List (ℚ × ℚ)) : ℚ × ℚ :=
  (density_based_1d_cluster (ratios.map Prod.fst),
   density_based_1d_cluster (ratios.map Prod.snd))

/-- One iteration of the double loop of calibrate_gaze lines 134-145:
point i = v * 3 + h contributes its representative horizontal ratio to
the leftmost (h = 0) or rightmost (else h = 2) list and its vertical
ratio to the top (v = 0) or bottom (else v = 2) list. -/
def extremeStep (ratios : List (ℚ × ℚ))
    (acc : List ℚ × List ℚ × List ℚ × List ℚ) (v h : ℕ) :
    List ℚ × List ℚ × List ℚ × List ℚ :=
  match ratios.get? (v * 3 + h) with
  | none => acc
  | some p =>
    let hp : List ℚ × List ℚ :=
      if h = 0 then (acc.1 ++ [p.1], acc.2.1)
      else if h = 2 then (acc.1, acc.2.1 ++ [p.1])
      else (acc.1, acc.2.1)
    let vp : List ℚ × List ℚ :=
      if v = 0 then (acc.2.2.1 ++ [p.2], acc.2.2.2)
      else if v = 2 then (acc.2.2.1, acc.2.2.2 ++ [p.2])
      else (acc.2.2.1, acc.2.2.2)
    (hp.1, hp.2, vp.1, vp.2)

/-- calibrate_gaze lines 128-145 for the default 3 by 3 grid: collect
the leftmost, rightmost, top and bottom ratio lists. -/
def extremeLists (ratios : List (ℚ × ℚ)) :
    List ℚ × List ℚ × List ℚ × List ℚ :=
  (List.range 3).foldl
    (fun acc v =>
      (List.range 3).foldl (fun acc2 h => extremeStep ratios acc2 v h) acc)
    ([], [], [], [])

/-- calibrate_gaze lines 146-149: the four extreme ratios are the
density-based cluster values of the four edge lists. -/
def computeExtremes (ratios : List (ℚ × ℚ)) : ℚ × ℚ × ℚ × ℚ :=
  let e := extremeLists ratios
  (density_based_1d_cluster e.1, density_based_1d_cluster e.2.1,
   density_based_1d_cluster e.2.2.1, density_based_1d_cluster e.2.2.2)

/-- Modelled from the spec: the EXTREMES_COMPUTED description says each
extreme is the average of the representative ratios over the
corresponding edge points; this is that arithmetic average, stated for
comparison with the computeExtremes of the code. -/
def specAverage (l : List ℚ) : ℚ := l.sum / (l.length : ℚ)

/-- Ceiling base-2 logarithm of three. -/
theorem clog_two_three : Nat.clog 2 3 = 2 := by
  rw [Nat.clog_of_two_le (by norm_num) (by norm_num)]
  norm_num [Nat.clog_eq_one]

/-- The density cluster of the empty series: numpy histograms an empty
array into a single empty bin over the interval from 0 to 1, and the
code returns its midpoint. -/
theorem density_nil : density_based_1d_cluster [] = 1/2 := by
  norm_num [density_based_1d_cluster, numpyAutoBins, outerEdges,
    histCounts, binEdges, argmaxList, argmaxAux,
    show List.range 1 = [0] from rfl, show List.range 2 = [0, 1] from rfl,
    List.getD]

/-- C3 counterexample: applied to an empty sample list the aggregator
returns the concrete value (1/2, 1/2) instead of surfacing an error. -/
theorem C3_no_error : cluster_ratios_for_calib_point [] = (1/2, 1/2) := by
  norm_num [cluster_ratios_for_calib_point, density_nil]

/-- C3 amended: on an empty sample list the aggregator silently returns
the default midpoint 1/2 of the single unit histogram bin that numpy
assigns to empty data, on each axis; no error is raised. -/
theorem C3_empty_default :
    density_based_1d_cluster [] = 1/2 ∧
    cluster_ratios_for_calib_point [] = (1/2, 1/2) :=
  ⟨density_nil, by norm_num [cluster_ratios_for_calib_point, density_nil]⟩

/-- The density cluster of the series 0, 0, 9/10: three bins over the
observed range, fullest bin first, midpoint 3/20. -/
theorem density_c4 : density_based_1d_cluster [0, 0, 9/10] = 3/20 := by
  norm_num [density_based_1d_cluster, numpyAutoBins, outerEdges, listMin,
    listMax, clog_two_three, histCounts, binIndex, binEdges, argmaxList,
    argmaxAux, show List.range 3 = [0, 1, 2] from rfl,
    show List.range 4 = [0, 1, 2, 3] from rfl, List.getD,
    List.countP_cons, List.countP_nil, beq_iff_eq]

/-- A complete set of aggregated calibration ratios whose first-column
horizontal ratios are 0, 0 and 9/10. -/
def exRatios : List (ℚ × ℚ) :=
  [(0, 7/10), (1/2, 7/10), (1/2, 7/10),
   (0, 1/2), (1/2, 1/2), (1/2, 1/2),
   (9/10, 9/10), (1/2, 9/10), (1/2, 9/10)]

/-- C4 counterexample: for these aggregated ratios the computed
leftmost_hr (3/20) differs from the arithmetic average (3/10) of the
column-0 representative horizontal ratios, refuting the averaging
claim. -/
theorem C4_counterexample :
    (computeExtremes exRatios).1 ≠ specAverage [0, 0, 9/10] := by
  have hL : (extremeLists exRatios).1 = [0, 0, 9/10] := rfl
  have hc : (computeExtremes exRatios).1 =
      density_based_1d_cluster (extremeLists exRatios).1 := rfl
  have hs : specAverage [0, 0, 9/10] = 3/10 := by norm_num [specAverage]
  rw [hc, hL, density_c4, hs]
  norm_num

/-- C4 amended: after all nine grid points are aggregated, each extreme
ratio is the density-based cluster value (fullest-histogram-bin
midpoint) of the representative ratios over the corresponding edge:
horizontal ratios of column 0 and column 2, vertical ratios of row 0
and row 2; not their arithmetic average. -/
theorem C4_extremes_are_density (r0 r1 r2 r3 r4 r5 r6 r7 r8 : ℚ × ℚ) :
    computeExtremes [r0, r1, r2, r3, r4, r5, r6, r7, r8] =
      (density_based_1d_cluster [r0.1, r3.1, r6.1],
       density_based_1d_cluster [r2.1, r5.1, r8.1],
       density_based_1d_cluster [r0.2, r1.2, r2.2],
       density_based_1d_cluster [r6.2, r7.2, r8.2]) := rfl
